import Mathlib

/-!
Shallow embedding of the core of the `image-captioning-project` repository:
the two-stage captioning pipeline (captioning stage, enhancement stage,
pipeline orchestrator) and its error-classification contract.

The repository contains two parallel implementations:
* `src/app/caption.py` (`CaptionModel`) and `src/app/enhancer.py`
  (`CaptionEnhancer`, Gemini cloud) — the package rooted at `src/`;
* `app/caption_model.py`, `app/enhancer.py`, `app/pipeline.py` — the package
  rooted at the repository top level, consumed by `api/main.py`.

Both are embedded below.  External collaborators (BLIP model, Gemini service,
the filesystem) are modelled as explicit environments supplying their
outcomes; the decision logic of the repository's own functions is translated
line by line.
-/

namespace ImageCaptioning

/-! ### Python string primitives used by the source -/

/-- Characters removed by Python `str.strip()` with no argument
(ASCII whitespace, as used by the captions in this code base). -/
def isPySpace (c : Char) : Bool :=
  c = ' ' || c = '\t' || c = '\n' || c = '\r' || c = '\x0b' || c = '\x0c'

/-- List-level model of Python `str.strip()`: drop leading and trailing
whitespace. -/
def stripChars (l : List Char) : List Char :=
  ((l.dropWhile isPySpace).reverse.dropWhile isPySpace).reverse

/-- Python `caption.strip()` on a Lean `String`. -/
def stripStr (s : String) : String :=
  String.mk (stripChars s.data)

/-- Model of Python `text.replace('"', '')`: removing every occurrence of a
one-character pattern is filtering that character out. -/
def removeQuotes (l : List Char) : List Char :=
  l.filter (fun c => c ≠ '"')

/-- Model of Python `str.lower()`. -/
def pyLower (l : List Char) : List Char :=
  l.map Char.toLower

/-- Model of Python substring containment `needle in hay`. -/
def containsSub (needle : List Char) : List Char → Bool
  | [] => needle.isEmpty
  | c :: t => needle.isPrefixOf (c :: t) || containsSub needle t

/-- String-level wrapper for Python `needle in hay`. -/
def pyContains (needle hay : String) : Bool :=
  containsSub needle.data hay.data

/-! ### Error taxonomy (`app/errors.py`)

Each exception class carries `message` and an optional `details` string. -/

/-- The closed set of domain errors defined in `app/errors.py`
(subclasses of `ImageCaptioningError`). -/
inductive DomainError where
  | APIConfigurationError (message : String) (details : Option String)
  | ModelNetworkError (message : String) (details : Option String)
  | ModelTimeoutError (message : String) (details : Option String)
  | ResourceLimitError (message : String) (details : Option String)
  | ImageNotFoundError (message : String) (details : Option String)
  | InvalidImageError (message : String) (details : Option String)
  | CaptionGenerationError (message : String) (details : Option String)
  | EnhancementError (message : String) (details : Option String)
deriving DecidableEq, Repr

deriving instance DecidableEq for Except

/-- The `message` attribute of a domain error. -/
def DomainError.message : DomainError → String
  | .APIConfigurationError m _ => m
  | .ModelNetworkError m _ => m
  | .ModelTimeoutError m _ => m
  | .ResourceLimitError m _ => m
  | .ImageNotFoundError m _ => m
  | .InvalidImageError m _ => m
  | .CaptionGenerationError m _ => m
  | .EnhancementError m _ => m

/-- The `details` attribute of a domain error. -/
def DomainError.details : DomainError → Option String
  | .APIConfigurationError _ d => d
  | .ModelNetworkError _ d => d
  | .ModelTimeoutError _ d => d
  | .ResourceLimitError _ d => d
  | .ImageNotFoundError _ d => d
  | .InvalidImageError _ d => d
  | .CaptionGenerationError _ d => d
  | .EnhancementError _ d => d

/-! ### Enhancement-failure classification (`src/app/enhancer.py`,
`CaptionEnhancer._run_cloud_inference`, `except` block) -/

/-- The auth-failure check of the `except` block:
`"api_key" in err_msg or "403" in err_msg` (on the lowercased message). -/
def authIndicator (m : List Char) : Bool :=
  containsSub "api_key".data m || containsSub "403".data m

/-- The quota check: `"quota" in err_msg or "429" in err_msg`. -/
def quotaIndicator (m : List Char) : Bool :=
  containsSub "quota".data m || containsSub "429".data m

/-- The connectivity check: `"network" in err_msg or "connection" in err_msg`. -/
def connIndicator (m : List Char) : Bool :=
  containsSub "network".data m || containsSub "connection".data m

/-- The `except Exception as e` block of
`CaptionEnhancer._run_cloud_inference`: `err_msg = str(e).lower()` followed by
the chain of substring checks, each raising its domain error with
`details=str(e)`. -/
def classifyCloudFailure (e : String) : DomainError :=
  let m := pyLower e.data
  if authIndicator m then
    .APIConfigurationError "Invalid Gemini API Key" (some e)
  else if quotaIndicator m then
    .ResourceLimitError "Gemini API quota exhausted" (some e)
  else if connIndicator m then
    .ModelNetworkError "Please check your internet connection" (some e)
  else
    .EnhancementError "Enhancement failed" (some e)

/-! ### Captioning stage (`src/app/caption.py`, `CaptionModel`)

The BLIP model, the PIL decoder and the filesystem are collaborators; a
`CaptionEnv` records their outcomes for each path.  `generate` first calls
`self._load_model()`, then checks `os.path.exists`, then decodes, and only
then runs inference; the embedding additionally records whether the
inference call (`self.model.generate`) was reached. -/

/-- Outcome of the underlying BLIP inference call for one image: a decoded
caption, a `torch.cuda.OutOfMemoryError`, or another exception with its
message. -/
inductive InferOutcome where
  | ok (caption : String)
  | oom
  | failure (msg : String)
deriving DecidableEq, Repr

/-- Collaborator outcomes seen by `CaptionModel` in `src/app/caption.py`:
the result of `_load_model`, `os.path.exists`, the PIL
`Image.open(...).convert("RGB")` decode (error message on failure), and the
inference call. -/
structure CaptionEnv where
  loadResult : Except String Unit
  pathExists : String → Bool
  decodeRGB : String → Except String Unit
  infer : String → InferOutcome

/-- Result of one `CaptionModel.generate` call together with whether the
underlying model inference was invoked. -/
structure GenResult where
  result : Except DomainError String
  inferInvoked : Bool
deriving DecidableEq, Repr

/-- Message of the `ResourceLimitError` raised on
`torch.cuda.OutOfMemoryError` in `CaptionModel.generate` (the source splits
it over two string literals joined by `\x5c`-continuation). -/
def oomMessage : String :=
  "Model inference failed due to GPU memory limits. Try reducing the batch size or using a smaller model."

/-- Details of the `ResourceLimitError` raised on
`torch.cuda.OutOfMemoryError` in `CaptionModel.generate`. -/
def oomDetails : String :=
  "Out of GPU memory during caption generation."

/-- `CaptionModel.generate` of `src/app/caption.py`: `_load_model()` (a load
failure raises `CaptionGenerationError`), then the existence check raising
`ImageNotFoundError(image_path)`, then the RGB decode raising
`InvalidImageError(str(e), details=str(e))`, then inference with
`torch.cuda.OutOfMemoryError` mapped to `ResourceLimitError` and any other
exception to `CaptionGenerationError("Caption generation failed.",
details=str(e))`. -/
def CaptionModel.generate (env : CaptionEnv) (image_path : String) : GenResult :=
  match env.loadResult with
  | .error e =>
      ⟨.error (.CaptionGenerationError ("Failed to load caption model: " ++ e) (some e)), false⟩
  | .ok _ =>
      if env.pathExists image_path = false then
        ⟨.error (.ImageNotFoundError image_path none), false⟩
      else
        match env.decodeRGB image_path with
        | .error e => ⟨.error (.InvalidImageError e (some e)), false⟩
        | .ok _ =>
            match env.infer image_path with
            | .ok c => ⟨.ok c, true⟩
            | .oom => ⟨.error (.ResourceLimitError oomMessage (some oomDetails)), true⟩
            | .failure e =>
                ⟨.error (.CaptionGenerationError "Caption generation failed." (some e)), true⟩

/-- `CaptionModel.generate_batch`: the list comprehension
`[self.generate(p) for p in image_paths]` evaluates `generate` on each path
in order; the first exception propagates and aborts the rest. -/
def CaptionModel.generate_batch (env : CaptionEnv) : List String → Except DomainError (List String)
  | [] => .ok []
  | p :: ps =>
      match (CaptionModel.generate env p).result with
      | .error e => .error e
      | .ok c =>
          match CaptionModel.generate_batch env ps with
          | .error e => .error e
          | .ok cs => .ok (c :: cs)

/-! ### Enhancement stage (`src/app/enhancer.py`, `CaptionEnhancer`)

The Gemini service is a collaborator: a `GeminiEnv` records the API key
(`os.getenv("GEMINI_API_KEY")`), any exception raised by
`genai.configure`/`genai.list_models`, and the listed models. -/

/-- One entry of `genai.list_models()`: a model name and its
`supported_generation_methods`. -/
structure GeminiModel where
  name : String
  supported_generation_methods : List String
deriving DecidableEq, Repr

/-- Collaborator outcomes seen by `CaptionEnhancer.__init__`. -/
structure GeminiEnv where
  apiKey : Option String
  discoveryFailure : Option String
  models : List GeminiModel

/-- Python truthiness of the `api_key` value: `None` and the empty string
are falsy (`if not api_key`). -/
def apiKeyTruthy : Option String → Bool
  | none => false
  | some s => s ≠ ""

/-- The list comprehension `[m.name for m in genai.list_models() if
'generateContent' in m.supported_generation_methods]`. -/
def availableModels (env : GeminiEnv) : List String :=
  (env.models.filter
    (fun m => m.supported_generation_methods.contains "generateContent")).map
    (fun m => m.name)

/-- The fixed `priority_list` of preferred Gemini model names in
`CaptionEnhancer.__init__`. -/
def priority_list : List String :=
  ["models/gemini-1.5-flash", "models/gemini-1.5-pro", "models/gemini-pro"]

/-- The selection loop of `__init__`: the first `priority_list` entry found
in `available_models`, else `available_models[0]` (only reached when the
list is non-empty). -/
def selectModelName (available : List String) : String :=
  match priority_list.find? (fun n => available.contains n) with
  | some n => n
  | none => available.headD ""

/-- The constructed enhancer: `self.model_type` and `self.model` (the name
of the `genai.GenerativeModel`, or `None` when `model_type` is not
`"cloud"`). -/
structure Enhancer where
  model_type : String
  model : Option String
deriving DecidableEq, Repr

/-- Body of the `try` block of `__init__` after `genai.configure`: any
discovery exception propagates; an empty `available_models` raises
`EnhancementError("No generative models available for this API key.")`
(whose `str` is its message); otherwise the selected model name is used.
The result is the exception message or the selected name. -/
def initBody (env : GeminiEnv) : Except String String :=
  match env.discoveryFailure with
  | some e => .error e
  | none =>
      if availableModels env = [] then
        .error "No generative models available for this API key."
      else
        .ok (selectModelName (availableModels env))

/-- `CaptionEnhancer.__init__(model_type, creativity)`: for `"cloud"`, a
falsy API key raises `APIConfigurationError("API Key missing. ...")` at
once; otherwise the `try` body runs and any exception `e` it raises is
caught and re-raised as `APIConfigurationError(f"API initialization failed:
{e}", details=str(e))`.  For any other `model_type`, `self.model` stays
`None` and construction succeeds. -/
def CaptionEnhancer.init (model_type : String) (env : GeminiEnv) : Except DomainError Enhancer :=
  if model_type = "cloud" then
    if apiKeyTruthy env.apiKey = false then
      .error (.APIConfigurationError "API Key missing. Please check your .env file."
        (some "GEMINI_API_KEY environment variable is required."))
    else
      match initBody env with
      | .ok selected => .ok ⟨model_type, some selected⟩
      | .error e =>
          .error (.APIConfigurationError ("API initialization failed: " ++ e) (some e))
  else
    .ok ⟨model_type, none⟩

/-- Application of the output post-processing of `_run_cloud_inference`
to the raw response text: `response.text.strip().replace('"', '')`. -/
def postprocessStr (t : String) : String :=
  String.mk (removeQuotes (stripChars t.data))

/-- `CaptionEnhancer._run_cloud_inference`: the collaborator outcome is
either an exception message, or a response whose `text` is absent/falsy
(`.ok none`) or a string.  A truthy (non-empty) text is post-processed and
returned; a falsy response or text returns the input caption; an exception
is classified by `classifyCloudFailure`. -/
def runCloudInference (resp : Except String (Option String)) (caption : String) :
    Except DomainError String :=
  match resp with
  | .error e => .error (classifyCloudFailure e)
  | .ok textOpt =>
      match textOpt with
      | some t => if t ≠ "" then .ok (postprocessStr t) else .ok caption
      | none => .ok caption

/-- `CaptionEnhancer.enhance(caption)`: the guard `if not caption or
len(caption.strip()) < 3 or not self.model: return caption`, then cloud
inference for `model_type == "cloud"`, else the caption unchanged. -/
def CaptionEnhancer.enhance (self : Enhancer) (resp : Except String (Option String))
    (caption : String) : Except DomainError String :=
  if caption = "" ∨ (stripStr caption).length < 3 ∨ self.model = none then
    .ok caption
  else if self.model_type = "cloud" then
    runCloudInference resp caption
  else
    .ok caption

/-! ### Top-level package: `app/caption_model.py`, `app/enhancer.py`,
`app/pipeline.py`, consumed by `api/main.py` -/

/-- Collaborator outcomes seen by the top-level `CaptionModel`
(`app/caption_model.py`): the filesystem, the PIL decode, and BLIP
inference (this version has no dedicated out-of-memory branch). -/
structure RootCaptionEnv where
  pathExists : String → Bool
  decodeRGB : String → Except String Unit
  infer : String → Except String String

/-- `CaptionModel.generate` of `app/caption_model.py`: existence check
raising `ImageNotFoundError(f"Image not found: {image_path}")`, decode
raising `InvalidImageError(f"Invalid image file: {e}")`, and every
inference exception raised as
`CaptionGenerationError(f"Caption generation failed: {e}")` (no `details`
argument, so `details` is `None`). -/
def RootCaptionModel.generate (env : RootCaptionEnv) (image_path : String) :
    Except DomainError String :=
  if env.pathExists image_path = false then
    .error (.ImageNotFoundError ("Image not found: " ++ image_path) none)
  else
    match env.decodeRGB image_path with
    | .error e => .error (.InvalidImageError ("Invalid image file: " ++ e) none)
    | .ok _ =>
        match env.infer image_path with
        | .ok c => .ok c
        | .error e => .error (.CaptionGenerationError ("Caption generation failed: " ++ e) none)

/-- `CaptionEnhancer.enhance` of `app/enhancer.py` (the local flan-t5
version): an empty or whitespace-only caption raises
`EnhancementError("Caption is empty")`; otherwise the seq2seq collaborator
runs, its output is `strip()`-ed, and any exception is raised as
`EnhancementError(f"Enhancement failed: {e}")`. -/
def LocalCaptionEnhancer.enhance (modelOut : Except String String) (caption : String) :
    Except DomainError String :=
  if caption = "" ∨ stripStr caption = "" then
    .error (.EnhancementError "Caption is empty" none)
  else
    match modelOut with
    | .ok t => .ok (stripStr t)
    | .error e => .error (.EnhancementError ("Enhancement failed: " ++ e) none)

/-- Failures observable at the Python level when running
`CaptionPipeline.generate_caption`: a classified domain error, a
`TypeError` from an unexpected keyword argument, or an `AttributeError`
from a missing attribute. -/
inductive PyFailure where
  | domain (e : DomainError)
  | typeErrorUnexpectedKeyword (method arg : String)
  | attributeErrorMissing (cls attr : String)
deriving DecidableEq, Repr

/-- Result of one `CaptionPipeline.generate_caption` call together with
whether `self.caption_model.generate` was invoked. -/
structure PipeResult where
  result : Except PyFailure String
  captionModelInvoked : Bool
deriving DecidableEq, Repr

/-- The method names the class `CaptionEnhancer` of `app/enhancer.py`
defines: attribute lookup of any other name on an instance raises
`AttributeError`. -/
def rootEnhancerAttrs : List String := ["__init__", "enhance"]

/-- The parameter names of `CaptionPipeline.generate_caption` in
`app/pipeline.py` besides `self`. -/
def generate_caption_params : List String := ["image_path"]

/-- `CaptionPipeline.generate_caption(image_path)` of `app/pipeline.py`:
the existence check raising
`ImageNotFoundError(f"Image not found: {image_path}")` before the caption
model is touched, then `self.caption_model.generate(image_path)`, then the
attribute access `self.caption_enhancer.enhance_caption` — which raises
`AttributeError`, since `CaptionEnhancer` defines no such method (the
`contains`-branch modelling a successful lookup is dead code). -/
def CaptionPipeline.generate_caption (env : RootCaptionEnv) (image_path : String) : PipeResult :=
  if env.pathExists image_path = false then
    ⟨.error (.domain (.ImageNotFoundError ("Image not found: " ++ image_path) none)), false⟩
  else
    match RootCaptionModel.generate env image_path with
    | .error e => ⟨.error (.domain e), true⟩
    | .ok caption =>
        if rootEnhancerAttrs.contains "enhance_caption" then
          ⟨.ok caption, true⟩
        else
          ⟨.error (.attributeErrorMissing "CaptionEnhancer" "enhance_caption"), true⟩

/-- A Python call `pipeline.generate_caption(image_path, **kwargs)` as
performed by `api/main.py` (which passes `enhance=...`): a keyword argument
that is not a parameter of `generate_caption` raises `TypeError` before the
body runs. -/
def callGenerateCaption (kwargs : List String) (env : RootCaptionEnv) (image_path : String) :
    PipeResult :=
  match kwargs.find? (fun k => generate_caption_params.contains k = false) with
  | some k => ⟨.error (.typeErrorUnexpectedKeyword "generate_caption" k), false⟩
  | none => CaptionPipeline.generate_caption env image_path

/-! ### Concrete collaborator environments used to instantiate theorems -/

/-- Boolean success test on an `Except` result. -/
def exceptOk {ε α : Type} : Except ε α → Bool
  | .ok _ => true
  | .error _ => false

/-- A concrete captioning environment: the model loads, `missing.jpg` does
not exist, `corrupt.jpg` exists but fails to decode, inference on `oom.jpg`
runs out of memory, on `weird.jpg` fails generically, and every other path
captions to `"caption of "` followed by the path. -/
def demoCapEnv : CaptionEnv where
  loadResult := .ok ()
  pathExists := fun p => p ≠ "missing.jpg"
  decodeRGB := fun p => if p = "corrupt.jpg" then .error "cannot identify image file" else .ok ()
  infer := fun p =>
    if p = "oom.jpg" then .oom
    else if p = "weird.jpg" then .failure "boom"
    else .ok ("caption of " ++ p)

/-- A concrete top-level environment where every path exists, decodes, and
captions to `"a cat"`. -/
def demoRootEnv : RootCaptionEnv where
  pathExists := fun _ => true
  decodeRGB := fun _ => .ok ()
  infer := fun _ => .ok "a cat"

/-! ## Theorems settling the claims -/

/-- C1: for every image path given to the captioning stage (with the model
load succeeding), a non-existent path raises `ImageNotFound` with the
inference never invoked; an existing but undecodable path raises
`InvalidImage` with the inference never invoked; inference is invoked
exactly when both checks pass; and the pipeline orchestrator likewise
raises `ImageNotFound` on a non-existent path without invoking its caption
model. -/
theorem C1_validation_order (env : CaptionEnv) (path : String)
    (hload : env.loadResult = .ok ()) :
    (env.pathExists path = false →
      CaptionModel.generate env path = ⟨.error (.ImageNotFoundError path none), false⟩) ∧
    (∀ e, env.pathExists path = true → env.decodeRGB path = .error e →
      CaptionModel.generate env path = ⟨.error (.InvalidImageError e (some e)), false⟩) ∧
    (env.pathExists path = true → env.decodeRGB path = .ok () →
      (CaptionModel.generate env path).inferInvoked = true) ∧
    (∀ renv : RootCaptionEnv, renv.pathExists path = false →
      CaptionPipeline.generate_caption renv path =
        ⟨.error (.domain (.ImageNotFoundError ("Image not found: " ++ path) none)), false⟩) := by
  refine ⟨?_, ?_, ?_, ?_⟩
  · intro h
    simp [CaptionModel.generate, hload, h]
  · intro e h1 h2
    simp [CaptionModel.generate, hload, h1, h2]
  · intro h1 h2
    cases hinf : env.infer path <;> simp [CaptionModel.generate, hload, h1, h2, hinf]
  · intro renv h
    simp [CaptionPipeline.generate_caption, h]

/-- Witness for C1 at concrete inputs: a missing path yields `ImageNotFound`
and a corrupt one `InvalidImage`, both without inference. -/
theorem C1_witness :
    CaptionModel.generate demoCapEnv "missing.jpg" =
      ⟨.error (.ImageNotFoundError "missing.jpg" none), false⟩ ∧
    CaptionModel.generate demoCapEnv "corrupt.jpg" =
      ⟨.error (.InvalidImageError "cannot identify image file"
        (some "cannot identify image file")), false⟩ :=
  ⟨(C1_validation_order demoCapEnv "missing.jpg" rfl).1 (by decide),
   (C1_validation_order demoCapEnv "corrupt.jpg" rfl).2.1
     "cannot identify image file" (by decide) (by decide)⟩

/-- C2: the enhancement stage classifies a remote failure by its diagnostic
text, lowercased, in this precedence: an auth-failure indicator (an API-key
reference or "403") gives `APIConfigurationError`; else a quota indicator
("quota" or "429") gives `ResourceLimitExceeded`; else a connectivity
indicator ("network" or "connection") gives `ModelNetworkError`; anything
else gives `EnhancementFailed`. -/
theorem C2_failure_classification (e : String) :
    (∀ caption, runCloudInference (.error e) caption = .error (classifyCloudFailure e)) ∧
    (authIndicator (pyLower e.data) = true →
      classifyCloudFailure e = .APIConfigurationError "Invalid Gemini API Key" (some e)) ∧
    (authIndicator (pyLower e.data) = false → quotaIndicator (pyLower e.data) = true →
      classifyCloudFailure e = .ResourceLimitError "Gemini API quota exhausted" (some e)) ∧
    (authIndicator (pyLower e.data) = false → quotaIndicator (pyLower e.data) = false →
      connIndicator (pyLower e.data) = true →
      classifyCloudFailure e = .ModelNetworkError "Please check your internet connection" (some e)) ∧
    (authIndicator (pyLower e.data) = false → quotaIndicator (pyLower e.data) = false →
      connIndicator (pyLower e.data) = false →
      classifyCloudFailure e = .EnhancementError "Enhancement failed" (some e)) := by
  refine ⟨fun _ => rfl, ?_, ?_, ?_, ?_⟩
  · intro h1
    simp [classifyCloudFailure, h1]
  · intro h1 h2
    simp [classifyCloudFailure, h1, h2]
  · intro h1 h2 h3
    simp [classifyCloudFailure, h1, h2, h3]
  · intro h1 h2 h3
    simp [classifyCloudFailure, h1, h2, h3]

/-- Witness for C2 at a concrete diagnostic text containing "403". -/
theorem C2_witness :
    classifyCloudFailure "HTTP 403 Forbidden" =
      .APIConfigurationError "Invalid Gemini API Key" (some "HTTP 403 Forbidden") :=
  (C2_failure_classification "HTTP 403 Forbidden").2.1 (by decide)

/-- C3 counterexample: the local enhancement stage of `app/enhancer.py`
raises `EnhancementError("Caption is empty")` on the empty caption instead
of returning it unchanged, so the claim as stated over every enhancement
stage is false. -/
theorem C3_counterexample :
    LocalCaptionEnhancer.enhance (.ok "whatever") "" =
      .error (.EnhancementError "Caption is empty" none) := by decide

/-- C3 (amended): the Gemini-based enhancement stage of
`src/app/enhancer.py` returns an empty, whitespace-only, or
below-threshold caption unchanged with no error; the local enhancement
stage of `app/enhancer.py` instead raises `EnhancementFailed` on an empty
or whitespace-only caption. -/
theorem C3_short_caption_pass_through (self : Enhancer)
    (resp : Except String (Option String)) (m : Except String String) (caption : String) :
    (caption = "" ∨ (stripStr caption).length < 3 →
      CaptionEnhancer.enhance self resp caption = .ok caption) ∧
    (caption = "" ∨ stripStr caption = "" →
      LocalCaptionEnhancer.enhance m caption =
        .error (.EnhancementError "Caption is empty" none)) := by
  constructor
  · intro h
    have hc : caption = "" ∨ (stripStr caption).length < 3 ∨ self.model = none := by
      tauto
    simp only [CaptionEnhancer.enhance]
    rw [if_pos hc]
  · intro h
    simp only [LocalCaptionEnhancer.enhance]
    rw [if_pos h]

/-- Witness for C3 (amended): a two-character caption passes through the
cloud stage unchanged; a whitespace-only caption makes the local stage
raise. -/
theorem C3_witness :
    CaptionEnhancer.enhance ⟨"cloud", some "models/gemini-1.5-flash"⟩
      (.ok (some "ignored")) "ab" = .ok "ab" ∧
    LocalCaptionEnhancer.enhance (.ok "ignored") "   " =
      .error (.EnhancementError "Caption is empty" none) :=
  ⟨(C3_short_caption_pass_through ⟨"cloud", some "models/gemini-1.5-flash"⟩
      (.ok (some "ignored")) (.ok "ignored") "ab").1 (Or.inr (by decide)),
   (C3_short_caption_pass_through ⟨"cloud", some "models/gemini-1.5-flash"⟩
      (.ok (some "ignored")) (.ok "ignored") "   ").2 (Or.inr (by decide))⟩

/-- C4: a captioning-model invocation that runs out of memory is classified
as `ResourceLimitExceeded` with message and details mentioning memory;
every other inference failure is classified as `CaptionGenerationFailed`. -/
theorem C4_inference_failure_classification (env : CaptionEnv) (path : String)
    (hload : env.loadResult = .ok ()) (hex : env.pathExists path = true)
    (hdec : env.decodeRGB path = .ok ()) :
    (env.infer path = .oom →
      CaptionModel.generate env path =
        ⟨.error (.ResourceLimitError oomMessage (some oomDetails)), true⟩ ∧
      pyContains "memory" oomMessage = true ∧ pyContains "memory" oomDetails = true) ∧
    (∀ e, env.infer path = .failure e →
      CaptionModel.generate env path =
        ⟨.error (.CaptionGenerationError "Caption generation failed." (some e)), true⟩) := by
  constructor
  · intro h
    refine ⟨?_, by decide, by decide⟩
    simp [CaptionModel.generate, hload, hex, hdec, h]
  · intro e h
    simp [CaptionModel.generate, hload, hex, hdec, h]

/-- Witness for C4: an out-of-memory path and a generically failing path in
the concrete environment. -/
theorem C4_witness :
    CaptionModel.generate demoCapEnv "oom.jpg" =
      ⟨.error (.ResourceLimitError oomMessage (some oomDetails)), true⟩ ∧
    CaptionModel.generate demoCapEnv "weird.jpg" =
      ⟨.error (.CaptionGenerationError "Caption generation failed." (some "boom")), true⟩ :=
  ⟨((C4_inference_failure_classification demoCapEnv "oom.jpg" rfl (by decide) (by decide)).1
      (by decide)).1,
   (C4_inference_failure_classification demoCapEnv "weird.jpg" rfl (by decide) (by decide)).2
      "boom" (by decide)⟩

/-- C5: evaluation of the pipeline orchestrator at the failing
configuration.  `api/main.py` calls
`pipeline.generate_caption(image_path, enhance=False)`, but
`CaptionPipeline.generate_caption` in `app/pipeline.py` accepts no
`enhance` parameter, so the call raises `TypeError` on any existing valid
image; and even the one-argument call can never return a caption, because
after a successful base caption the body calls the nonexistent method
`CaptionEnhancer.enhance_caption` and raises `AttributeError`. -/
theorem C5_enhance_flag_bug :
    (callGenerateCaption ["enhance"] demoRootEnv "cat.jpg").result =
      .error (.typeErrorUnexpectedKeyword "generate_caption" "enhance") ∧
    (CaptionPipeline.generate_caption demoRootEnv "cat.jpg").result =
      .error (.attributeErrorMissing "CaptionEnhancer" "enhance_caption") := by
  constructor <;> rfl

/-- C6 counterexample: when the raw model output wraps whitespace inside
literal quotes, the post-processing (strip, then remove quotes) leaves
leading and trailing whitespace in the returned caption, contradicting the
claim that the result never has surrounding whitespace. -/
theorem C6_counterexample :
    CaptionEnhancer.enhance ⟨"cloud", some "models/gemini-1.5-flash"⟩
      (.ok (some "\" h \"")) "abc" = .ok " h " ∧
    (" h ").data.head? = some ' ' := by
  constructor <;> rfl

/-- C6 (amended): when the underlying model returns non-empty text, the
returned caption is that text stripped of surrounding whitespace and then
with every literal double-quote removed — hence it contains no
double-quote character, but it can retain surrounding whitespace when the
raw text wraps whitespace inside quotes; an empty payload returns the
input caption unchanged. -/
theorem C6_output_postprocessing (t caption : String) (h : t ≠ "") :
    runCloudInference (.ok (some t)) caption = .ok (postprocessStr t) ∧
    ∀ c ∈ (postprocessStr t).data, c ≠ '"' := by
  constructor
  · simp [runCloudInference, h]
  · intro c hc
    have hmem : c ∈ removeQuotes (stripChars t.data) := hc
    rcases List.mem_filter.mp hmem with ⟨-, hq⟩
    simpa using hq

/-- Witness for C6 (amended): scenario B of the specification — a raw
output `"A cat sleeps."` wrapped in quotes comes back as `A cat sleeps.`. -/
theorem C6_witness :
    runCloudInference (.ok (some "\"A cat sleeps.\"")) "x" =
      .ok (postprocessStr "\"A cat sleeps.\"") ∧
    postprocessStr "\"A cat sleeps.\"" = "A cat sleeps." :=
  ⟨(C6_output_postprocessing "\"A cat sleeps.\"" "x" (by decide)).1, by decide⟩

/-- C7: constructing the cloud enhancement stage with a falsy credential
(absent or empty `GEMINI_API_KEY`) raises `APIConfigurationError`
immediately, and no enhancer instance is ever produced. -/
theorem C7_missing_credential (env : GeminiEnv) (h : apiKeyTruthy env.apiKey = false) :
    CaptionEnhancer.init "cloud" env =
      .error (.APIConfigurationError "API Key missing. Please check your .env file."
        (some "GEMINI_API_KEY environment variable is required.")) ∧
    ∀ enh : Enhancer, CaptionEnhancer.init "cloud" env ≠ .ok enh := by
  have h1 : CaptionEnhancer.init "cloud" env =
      .error (.APIConfigurationError "API Key missing. Please check your .env file."
        (some "GEMINI_API_KEY environment variable is required.")) := by
    simp [CaptionEnhancer.init, h]
  exact ⟨h1, fun enh hc => by rw [h1] at hc; cases hc⟩

/-- Witness for C7: the credential is absent. -/
theorem C7_witness :
    CaptionEnhancer.init "cloud" ⟨none, none, []⟩ =
      .error (.APIConfigurationError "API Key missing. Please check your .env file."
        (some "GEMINI_API_KEY environment variable is required.")) :=
  (C7_missing_credential ⟨none, none, []⟩ (by decide)).1

/-- C8: during cloud construction with a truthy credential and no discovery
exception, a non-empty available list yields an enhancer using the first
priority-list name present among the available models
(`models/gemini-1.5-flash`, then `models/gemini-1.5-pro`, then
`models/gemini-pro`), falling back to the first available model when none
matches; an empty available list raises `APIConfigurationError` (wrapping
the internal "No generative models available" failure). -/
theorem C8_model_discovery (env : GeminiEnv)
    (hkey : apiKeyTruthy env.apiKey = true) (hdisc : env.discoveryFailure = none) :
    (availableModels env ≠ [] →
      CaptionEnhancer.init "cloud" env =
        .ok ⟨"cloud", some (selectModelName (availableModels env))⟩) ∧
    ("models/gemini-1.5-flash" ∈ availableModels env →
      selectModelName (availableModels env) = "models/gemini-1.5-flash") ∧
    ("models/gemini-1.5-flash" ∉ availableModels env →
      "models/gemini-1.5-pro" ∈ availableModels env →
      selectModelName (availableModels env) = "models/gemini-1.5-pro") ∧
    ("models/gemini-1.5-flash" ∉ availableModels env →
      "models/gemini-1.5-pro" ∉ availableModels env →
      "models/gemini-pro" ∈ availableModels env →
      selectModelName (availableModels env) = "models/gemini-pro") ∧
    (∀ m rest, availableModels env = m :: rest →
      "models/gemini-1.5-flash" ∉ availableModels env →
      "models/gemini-1.5-pro" ∉ availableModels env →
      "models/gemini-pro" ∉ availableModels env →
      selectModelName (availableModels env) = m) ∧
    (availableModels env = [] →
      CaptionEnhancer.init "cloud" env =
        .error (.APIConfigurationError
          ("API initialization failed: " ++ "No generative models available for this API key.")
          (some "No generative models available for this API key."))) := by
  refine ⟨?_, ?_, ?_, ?_, ?_, ?_⟩
  · intro h
    have hb : initBody env = .ok (selectModelName (availableModels env)) := by
      simp [initBody, hdisc, h]
    simp [CaptionEnhancer.init, hkey, hb]
  · intro h1
    simp [selectModelName, priority_list, List.find?, h1]
  · intro h1 h2
    simp [selectModelName, priority_list, List.find?, h1, h2]
  · intro h1 h2 h3
    simp [selectModelName, priority_list, List.find?, h1, h2, h3]
  · intro m rest hav h1 h2 h3
    rw [hav] at h1 h2 h3
    simp [selectModelName, priority_list, List.find?, h1, h2, h3, hav]
  · intro h
    have hb : initBody env = .error "No generative models available for this API key." := by
      simp [initBody, hdisc, h]
    simp [CaptionEnhancer.init, hkey, hb]

/-- Witness for C8: an available list without the flash model selects
`models/gemini-1.5-pro`; an empty list raises `APIConfigurationError`. -/
theorem C8_witness :
    CaptionEnhancer.init "cloud" ⟨some "k", none,
        [⟨"models/gemini-2.0", ["generateContent"]⟩,
         ⟨"models/gemini-1.5-pro", ["generateContent"]⟩,
         ⟨"models/text-embed", ["embed"]⟩]⟩ =
      .ok ⟨"cloud", some (selectModelName (availableModels ⟨some "k", none,
        [⟨"models/gemini-2.0", ["generateContent"]⟩,
         ⟨"models/gemini-1.5-pro", ["generateContent"]⟩,
         ⟨"models/text-embed", ["embed"]⟩]⟩))⟩ ∧
    selectModelName (availableModels ⟨some "k", none,
        [⟨"models/gemini-2.0", ["generateContent"]⟩,
         ⟨"models/gemini-1.5-pro", ["generateContent"]⟩,
         ⟨"models/text-embed", ["embed"]⟩]⟩) = "models/gemini-1.5-pro" ∧
    CaptionEnhancer.init "cloud" ⟨some "k", none, []⟩ =
      .error (.APIConfigurationError
        ("API initialization failed: " ++ "No generative models available for this API key.")
        (some "No generative models available for this API key.")) :=
  ⟨(C8_model_discovery _ (by decide) rfl).1 (by decide), by decide,
   (C8_model_discovery ⟨some "k", none, []⟩ (by decide) rfl).2.2.2.2.2 (by decide)⟩

/-- C9: the batch captioning operation applies the single-image `generate`
to each path independently in list order: when every path succeeds the
result is the list of captions in input order, and the first failing path
propagates its error, aborting the remaining paths. -/
theorem C9_batch_fail_fast (env : CaptionEnv) :
    (∀ (paths : List String) (f : String → String),
      (∀ p ∈ paths, (CaptionModel.generate env p).result = .ok (f p)) →
      CaptionModel.generate_batch env paths = .ok (paths.map f)) ∧
    (∀ (pre : List String) (p : String) (post : List String) (e : DomainError),
      (∀ q ∈ pre, exceptOk (CaptionModel.generate env q).result = true) →
      (CaptionModel.generate env p).result = .error e →
      CaptionModel.generate_batch env (pre ++ p :: post) = .error e) := by
  constructor
  · intro paths f
    induction paths with
    | nil => intro _; rfl
    | cons a t ih =>
      intro h
      have ha := h a (by simp)
      have ht := ih (fun q hq => h q (by simp [hq]))
      simp [CaptionModel.generate_batch, ha, ht]
  · intro pre p post e
    induction pre with
    | nil =>
      intro _ hp
      simp [CaptionModel.generate_batch, hp]
    | cons a t ih =>
      intro hpre hp
      have ha := hpre a (by simp)
      have hrec := ih (fun q hq => hpre q (by simp [hq])) hp
      rcases hc : (CaptionModel.generate env a).result with v | c
      · rw [hc] at ha
        simp [exceptOk] at ha
      · simp [CaptionModel.generate_batch, hc, hrec]

/-- Witness for C9: a fully successful batch keeps input order; inserting a
missing path aborts with its `ImageNotFound` error. -/
theorem C9_witness :
    CaptionModel.generate_batch demoCapEnv ["a.jpg", "b.jpg"] =
      .ok (["a.jpg", "b.jpg"].map (fun p => "caption of " ++ p)) ∧
    (["a.jpg", "b.jpg"].map (fun p => "caption of " ++ p) =
      ["caption of a.jpg", "caption of b.jpg"]) ∧
    CaptionModel.generate_batch demoCapEnv ["a.jpg", "missing.jpg", "b.jpg"] =
      .error (.ImageNotFoundError "missing.jpg" none) :=
  ⟨(C9_batch_fail_fast demoCapEnv).1 ["a.jpg", "b.jpg"]
      (fun p => "caption of " ++ p) (by decide),
   by decide,
   (C9_batch_fail_fast demoCapEnv).2 ["a.jpg"] "missing.jpg" ["b.jpg"]
      (.ImageNotFoundError "missing.jpg" none) (by decide) (by decide)⟩

/-- C10: when the remote service responds successfully but with an absent
or empty text payload, `enhance` returns the original input caption
unchanged, for every enhancer state and caption. -/
theorem C10_empty_payload_pass_through (self : Enhancer)
    (resp : Except String (Option String)) (caption : String)
    (h : resp = .ok none ∨ resp = .ok (some "")) :
    CaptionEnhancer.enhance self resp caption = .ok caption := by
  rcases h with h | h <;> subst h <;>
    simp [CaptionEnhancer.enhance, runCloudInference]

/-- Witness for C10: an absent payload on a configured cloud enhancer. -/
theorem C10_witness :
    CaptionEnhancer.enhance ⟨"cloud", some "models/gemini-1.5-flash"⟩
      (.ok none) "a red car" = .ok "a red car" :=
  C10_empty_payload_pass_through ⟨"cloud", some "models/gemini-1.5-flash"⟩
    (.ok none) "a red car" (Or.inl rfl)

end ImageCaptioning
